import Mathlib

/-!
Verification of the HTTP wrapper in `http_wrapper.py`: a shallow embedding of
the `AbletonHandler` request-handling logic (validation, device-name
resolution, command construction, response encoding) and proofs about it.
-/

/-- JSON scalar values as decoded by `json.loads` for the body fields the
handler reads. `null` doubles as the result of a missing key, matching
Python's `dict.get` returning `None`. -/
inductive JValue where
  | null
  | bool (b : Bool)
  | num (n : Int)
  | str (s : String)
deriving DecidableEq, Repr

/-- A decoded request body: an association list of string keys to values. -/
abbrev Body := List (String × JValue)

/-- First-match lookup in an association list (Python dict keys are unique;
first match models `dict[k]`). -/
def lookupKey : Body → String → Option JValue
  | [], _ => none
  | (k, v) :: rest, key => if k = key then some v else lookupKey rest key

/-- `data.get(k)` in Python: the stored value, or `None` when the key is
absent. JSON `null` also decodes to `None`, so both cases land on
`JValue.null`. -/
def pyGet (data : Body) (k : String) : JValue :=
  match lookupKey data k with
  | some v => v
  | none => JValue.null

/-- Python truthiness of a decoded JSON scalar, as used by `not device_name`. -/
def pyTruthy : JValue → Bool
  | JValue.null => false
  | JValue.bool b => b
  | JValue.num n => n ≠ 0
  | JValue.str s => s ≠ ""

/-- Python `s.replace(" ", "%20")` on the underlying character list: every
space character is replaced by the three characters `%20`. -/
def replaceSpaceList : List Char → List Char
  | [] => []
  | c :: cs =>
      if c = ' ' then '%' :: '2' :: '0' :: replaceSpaceList cs
      else c :: replaceSpaceList cs

/-- Python `device_name.replace(" ", "%20")`. -/
def pyReplaceSpace (s : String) : String :=
  String.mk (replaceSpaceList s.data)

/-- The fixed name-to-URI table `device_uris` from `add_device`. -/
def device_uris : List (String × String) :=
  [("EQ Eight", "query:Audio%20Effects#Ableton#EQ%20Eight"),
   ("Compressor", "query:Audio%20Effects#Ableton#Compressor"),
   ("Reverb", "query:Audio%20Effects#Ableton#Reverb"),
   ("Delay", "query:Audio%20Effects#Ableton#Delay")]

/-- First-match lookup in a string-to-string table, modelling `dict.get`. -/
def lookupStr : List (String × String) → String → Option String
  | [], _ => none
  | (k, v) :: rest, key => if k = key then some v else lookupStr rest key

/-- The fallback URI construction from `add_device`:
`f'query:Audio%20Effects#Ableton#{device_name.replace(" ", "%20")}'`. -/
def fallbackUri (device_name : String) : String :=
  "query:Audio%20Effects#Ableton#" ++ pyReplaceSpace device_name

/-- Device-name resolution from `add_device`:
`device_uri = device_uris.get(device_name)` followed by
`if not device_uri: device_uri = <fallback>`. A falsy lookup result
(absent, or the empty string) falls through to the fallback. -/
def resolveUri (device_name : String) : String :=
  match lookupStr device_uris device_name with
  | some uri => if uri = "" then fallbackUri device_name else uri
  | none => fallbackUri device_name

/-- The command handed to `self.ableton.send_command`: the fixed name
`"load_browser_item"` plus args `{"track_index": ..., "item_uri": ...}`. -/
structure Command where
  name : String
  track_index : JValue
  item_uri : String
deriving DecidableEq, Repr

/-- What `add_device` does before any remote call: either it raises an
exception, or it has built the one command it will send. -/
inductive DispatchStep where
  | valueError (msg : String)
  | attrError
  | sendCmd (c : Command)
deriving DecidableEq, Repr

/-- The error message of the `ValueError` raised by `add_device`. -/
def valueErrorMsg : String := "track_index and device_name required"

/-- The pure prefix of `AbletonHandler.add_device`: read `track_index`,
`device_name` and `category` from the body, validate
(`if track_index is None or not device_name: raise ValueError(...)`),
resolve the URI, and construct the command for `send_command`. A truthy
non-string `device_name` reaches `.replace` and raises `AttributeError`
(its message depends on the runtime type and is not modelled). The
`category` local (`data.get('category', 'audio_effects')`) is read but
never used, so it does not appear in the result. -/
def add_device_step (data : Body) : DispatchStep :=
  let track_index := pyGet data "track_index"
  let device_name := pyGet data "device_name"
  if track_index = JValue.null ∨ pyTruthy device_name = false then
    DispatchStep.valueError valueErrorMsg
  else
    match device_name with
    | JValue.str s =>
        DispatchStep.sendCmd ⟨"load_browser_item", track_index, resolveUri s⟩
    | _ => DispatchStep.attrError

/-- The Connection Handle's behaviour on one `send_command` call: a result
value or a raised error with a message. -/
inductive SendResult where
  | ok (v : JValue)
  | err (msg : String)
deriving DecidableEq, Repr

/-- Response payloads the handler serializes. `attrErrorPayload` stands for
`{"error": <interpreter message>}` whose text is not modelled. -/
inductive Payload where
  | successResult (v : JValue)
  | errorMsg (m : String)
  | attrErrorPayload
  | statusOk
  | emptyBody
deriving DecidableEq, Repr

/-- The header list written by `send_json_response`, in order. -/
def send_json_response_headers : List (String × String) :=
  [("Content-type", "application/json"),
   ("Access-Control-Allow-Origin", "*"),
   ("Access-Control-Allow-Methods", "GET, POST, OPTIONS"),
   ("Access-Control-Allow-Headers", "Content-Type")]

/-- The header list written by `do_OPTIONS`, in order. -/
def do_OPTIONS_headers : List (String × String) :=
  [("Access-Control-Allow-Origin", "*"),
   ("Access-Control-Allow-Methods", "GET, POST, OPTIONS"),
   ("Access-Control-Allow-Headers", "Content-Type")]

/-- An HTTP response: status code, headers in write order, and payload. -/
structure HttpResponse where
  status : Nat
  headers : List (String × String)
  payload : Payload
deriving DecidableEq, Repr

/-- `AbletonHandler.do_POST` on a successfully decoded body, parameterised by
the Connection Handle's behaviour `send`. Returns the list of `send_command`
invocations made (in order) together with the response written. The
`try/except` around the dispatch converts any raised exception into a 500
response carrying `str(e)`. -/
def do_POST (send : Command → SendResult) (path : String) (data : Body) :
    List Command × HttpResponse :=
  if path = "/add_device" then
    match add_device_step data with
    | DispatchStep.valueError msg =>
        ([], ⟨500, send_json_response_headers, Payload.errorMsg msg⟩)
    | DispatchStep.attrError =>
        ([], ⟨500, send_json_response_headers, Payload.attrErrorPayload⟩)
    | DispatchStep.sendCmd c =>
        match send c with
        | SendResult.ok v =>
            ([c], ⟨200, send_json_response_headers, Payload.successResult v⟩)
        | SendResult.err m =>
            ([c], ⟨500, send_json_response_headers, Payload.errorMsg m⟩)
  else
    ([], ⟨404, send_json_response_headers,
          Payload.errorMsg "Endpoint not found"⟩)

/-- `AbletonHandler.do_OPTIONS`: status 200, the three CORS headers, empty
body. -/
def do_OPTIONS : HttpResponse :=
  ⟨200, do_OPTIONS_headers, Payload.emptyBody⟩

/-- Connection-construction model. `HTTPServer` instantiates the handler
class once per incoming request, and `AbletonHandler.__init__` runs
`self.ableton = AbletonConnection(host="localhost", port=9877)` before
delegating to the base class. We number `AbletonConnection` instances in
construction order: the state carries the next fresh instance id, and
handling one request constructs (and uses) a fresh instance. -/
def handleRequestConn (nextConnId : Nat) : Nat × Nat :=
  (nextConnId + 1, nextConnId)

/-- The ids of the `AbletonConnection` instances used by the first `n`
requests served by the process, in order. -/
def serveConnTrace : Nat → Nat → List Nat
  | 0, _ => []
  | n + 1, st =>
      let p := handleRequestConn st
      p.2 :: serveConnTrace n p.1

/-! ## Helper lemmas -/

/-- A successful table lookup never yields the empty string. -/
lemma lookupStr_device_uris_ne_empty (d u : String)
    (h : lookupStr device_uris d = some u) : u ≠ "" := by
  simp only [device_uris, lookupStr] at h
  split_ifs at h <;> simp_all
  all_goals subst h
  all_goals decide

/-- A name equal to none of the four table keys misses the table. -/
lemma lookupStr_device_uris_eq_none (d : String)
    (h1 : d ≠ "EQ Eight") (h2 : d ≠ "Compressor") (h3 : d ≠ "Reverb")
    (h4 : d ≠ "Delay") : lookupStr device_uris d = none := by
  simp only [device_uris, lookupStr]
  split_ifs with e1 e2 e3 e4 <;> simp_all

/-- The fallback construction never returns the empty string. -/
lemma fallbackUri_ne_empty (d : String) : fallbackUri d ≠ "" := by
  intro h
  have h2 := congrArg String.data h
  simp [fallbackUri, String.data_append] at h2

/-- A valid body (non-null track_index, non-empty string device_name) drives
`add_device` to the single send with the resolved command. -/
lemma add_device_step_valid (data : Body) (d : String)
    (htrack : ¬ pyGet data "track_index" = JValue.null)
    (hname : pyGet data "device_name" = JValue.str d)
    (hne : ¬ d = "") :
    add_device_step data =
      DispatchStep.sendCmd ⟨"load_browser_item", pyGet data "track_index", resolveUri d⟩ := by
  simp [add_device_step, hname, pyTruthy, htrack, hne]

/-- A body failing the validation check raises the ValueError. -/
lemma add_device_step_invalid (data : Body)
    (h : pyGet data "track_index" = JValue.null ∨
         pyTruthy (pyGet data "device_name") = false) :
    add_device_step data = DispatchStep.valueError valueErrorMsg := by
  unfold add_device_step
  simp only []
  rw [if_pos h]

/-- The headers of every `do_POST` response come from `send_json_response`. -/
lemma do_POST_headers (send : Command → SendResult) (path : String)
    (data : Body) :
    (do_POST send path data).2.headers = send_json_response_headers := by
  unfold do_POST
  split
  · split <;> first | rfl | split <;> rfl
  · rfl

/-! ## Claim theorems -/

/-- C1: a POST to `/add_device` with non-null `track_index` and non-empty
`device_name` invokes `send_command` exactly once (trace of length one), with
name `"load_browser_item"` and args carrying the given `track_index` and the
resolved URI; when the send returns `v`, the response is status 200 with
payload `{"success": true, "result": v}`, `v` unmodified. -/
theorem c1_valid_add_device_sends_once_passes_result
    (data : Body) (send : Command → SendResult) (d : String) (v : JValue)
    (htrack : pyGet data "track_index" ≠ JValue.null)
    (hname : pyGet data "device_name" = JValue.str d)
    (hne : d ≠ "")
    (hsend : send ⟨"load_browser_item", pyGet data "track_index", resolveUri d⟩
               = SendResult.ok v) :
    do_POST send "/add_device" data =
      ([⟨"load_browser_item", pyGet data "track_index", resolveUri d⟩],
       ⟨200, send_json_response_headers, Payload.successResult v⟩) := by
  unfold do_POST
  rw [if_pos rfl, add_device_step_valid data d htrack hname hne]
  simp only [hsend]

/-- C1 witness: a concrete valid body with `track_index` 2 and `device_name`
"EQ Eight", against a handle returning the number 7. -/
theorem c1_witness :
    do_POST (fun _ => SendResult.ok (JValue.num 7)) "/add_device"
        [("track_index", JValue.num 2), ("device_name", JValue.str "EQ Eight")] =
      ([⟨"load_browser_item", JValue.num 2, resolveUri "EQ Eight"⟩],
       ⟨200, send_json_response_headers, Payload.successResult (JValue.num 7)⟩) :=
  c1_valid_add_device_sends_once_passes_result
    [("track_index", JValue.num 2), ("device_name", JValue.str "EQ Eight")]
    (fun _ => SendResult.ok (JValue.num 7)) "EQ Eight" (JValue.num 7)
    (by decide) (by decide) (by decide) rfl

/-- C2 counterexample: the body with `track_index` 0 and the whitespace-only
`device_name` `"   "` — a name that is empty after trimming surrounding
whitespace (every character is a space) — nevertheless passes validation:
`send_command` IS invoked (trace length 1) and the response status is 200,
not 500, refuting the claim as stated. -/
theorem c2_counterexample_whitespace_device_name :
    ("   ".data.all (fun c => c = ' ') = true) ∧
    (do_POST (fun _ => SendResult.ok JValue.null) "/add_device"
        [("track_index", JValue.num 0),
         ("device_name", JValue.str "   ")]).1.length = 1 ∧
    (do_POST (fun _ => SendResult.ok JValue.null) "/add_device"
        [("track_index", JValue.num 0),
         ("device_name", JValue.str "   ")]).2.status = 200 := by
  refine ⟨by decide, ?_, ?_⟩ <;> rfl

/-- C2 amended: the code checks Python falsiness, not emptiness after
trimming. A POST to `/add_device` whose `track_index` is missing or null, or
whose `device_name` is missing, null, or otherwise falsy (in particular the
empty string — but NOT a whitespace-only string), yields status 500 with the
ValueError message, and `send_command` is never invoked (empty trace). -/
theorem c2_invalid_add_device_no_send_500
    (data : Body) (send : Command → SendResult)
    (h : pyGet data "track_index" = JValue.null ∨
         pyTruthy (pyGet data "device_name") = false) :
    do_POST send "/add_device" data =
      ([], ⟨500, send_json_response_headers, Payload.errorMsg valueErrorMsg⟩) := by
  unfold do_POST
  rw [if_pos rfl, add_device_step_invalid data h]

/-- C2 witness: a body missing `track_index` entirely. -/
theorem c2_witness :
    do_POST (fun _ => SendResult.ok JValue.null) "/add_device"
        [("device_name", JValue.str "Reverb")] =
      ([], ⟨500, send_json_response_headers, Payload.errorMsg valueErrorMsg⟩) :=
  c2_invalid_add_device_no_send_500 [("device_name", JValue.str "Reverb")]
    (fun _ => SendResult.ok JValue.null) (Or.inl (by decide))

/-- C3: resolution returns exactly the table value for every table key, and
the fallback template (spaces replaced by `%20`) for every other non-empty
name; in particular "EQ Eight" and "My Custom FX" resolve as stated. -/
theorem c3_resolution_table_then_fallback :
    (∀ d u, lookupStr device_uris d = some u → resolveUri d = u) ∧
    (∀ d, lookupStr device_uris d = none → d ≠ "" →
        resolveUri d = "query:Audio%20Effects#Ableton#" ++ pyReplaceSpace d) ∧
    resolveUri "EQ Eight" = "query:Audio%20Effects#Ableton#EQ%20Eight" ∧
    resolveUri "My Custom FX" = "query:Audio%20Effects#Ableton#My%20Custom%20FX" := by
  refine ⟨?_, ?_, by decide, by decide⟩
  · intro d u h
    unfold resolveUri
    rw [h]
    show (if u = "" then fallbackUri d else u) = u
    rw [if_neg (lookupStr_device_uris_ne_empty d u h)]
  · intro d h _
    unfold resolveUri
    rw [h]
    rfl

/-- C3 witness: the table branch applied at the key "Delay". -/
theorem c3_witness :
    resolveUri "Delay" = "query:Audio%20Effects#Ableton#Delay" :=
  c3_resolution_table_then_fallback.1 "Delay"
    "query:Audio%20Effects#Ableton#Delay" (by decide)

/-- C4: when validation passes and the handle's send raises with message `m`,
the response is status 500 with payload `{"error": m}` (the message
verbatim), and the send was invoked exactly once (trace of length one). -/
theorem c4_remote_error_500_single_attempt
    (data : Body) (send : Command → SendResult) (d m : String)
    (htrack : pyGet data "track_index" ≠ JValue.null)
    (hname : pyGet data "device_name" = JValue.str d)
    (hne : d ≠ "")
    (hsend : send ⟨"load_browser_item", pyGet data "track_index", resolveUri d⟩
               = SendResult.err m) :
    do_POST send "/add_device" data =
      ([⟨"load_browser_item", pyGet data "track_index", resolveUri d⟩],
       ⟨500, send_json_response_headers, Payload.errorMsg m⟩) := by
  unfold do_POST
  rw [if_pos rfl, add_device_step_valid data d htrack hname hne]
  simp only [hsend]

/-- C4 witness: a concrete valid body against a handle that raises
"Connection refused". -/
theorem c4_witness :
    do_POST (fun _ => SendResult.err "Connection refused") "/add_device"
        [("track_index", JValue.num 1), ("device_name", JValue.str "Reverb")] =
      ([⟨"load_browser_item", JValue.num 1, resolveUri "Reverb"⟩],
       ⟨500, send_json_response_headers,
        Payload.errorMsg "Connection refused"⟩) :=
  c4_remote_error_500_single_attempt
    [("track_index", JValue.num 1), ("device_name", JValue.str "Reverb")]
    (fun _ => SendResult.err "Connection refused") "Reverb"
    "Connection refused" (by decide) (by decide) (by decide) rfl

/-- C5 (code bug): contrary to the claim — and to the spec's stated intent of
one Connection Handle per process — `AbletonHandler.__init__` constructs a
fresh `AbletonConnection` on every request, because `HTTPServer` instantiates
the handler class per request. The first two requests use two distinct
connection instances (ids 0 and 1), and every request gets its own. -/
theorem c5_connection_constructed_per_request :
    serveConnTrace 2 0 = [0, 1] ∧ (serveConnTrace 2 0).Nodup := by
  refine ⟨rfl, by decide⟩

/-- C6: `category` never affects the outcome — any two bodies that read the
same `track_index` and `device_name` (whatever `category` holds, present or
absent) produce identical send traces and identical responses under the same
handle behaviour. -/
theorem c6_category_does_not_affect_outcome
    (b1 b2 : Body) (send : Command → SendResult)
    (htrack : pyGet b1 "track_index" = pyGet b2 "track_index")
    (hname : pyGet b1 "device_name" = pyGet b2 "device_name") :
    do_POST send "/add_device" b1 = do_POST send "/add_device" b2 := by
  unfold do_POST add_device_step
  rw [htrack, hname]

/-- C6 witness: the same body with and without a `category` field ("foo",
not the default) behaves identically. -/
theorem c6_witness :
    do_POST (fun _ => SendResult.ok (JValue.str "ok")) "/add_device"
        [("track_index", JValue.num 3), ("device_name", JValue.str "Delay"),
         ("category", JValue.str "foo")] =
      do_POST (fun _ => SendResult.ok (JValue.str "ok")) "/add_device"
        [("track_index", JValue.num 3), ("device_name", JValue.str "Delay")] :=
  c6_category_does_not_affect_outcome
    [("track_index", JValue.num 3), ("device_name", JValue.str "Delay"),
     ("category", JValue.str "foo")]
    [("track_index", JValue.num 3), ("device_name", JValue.str "Delay")]
    (fun _ => SendResult.ok (JValue.str "ok")) (by decide) (by decide)

/-- C7 counterexample: the OPTIONS response does NOT carry a Content-Type
header — `do_OPTIONS` writes only the three CORS headers (no header name in
it is any casing of "content-type"), refuting "every response ... including
responses to OPTIONS requests — carries the header Content-Type". -/
theorem c7_counterexample_options_lacks_content_type :
    do_OPTIONS.status = 200 ∧
    do_OPTIONS.headers = do_OPTIONS_headers ∧
    (do_OPTIONS.headers.all fun p => !((p.1.data.map Char.toLower) == "content-type".data)) = true := by
  refine ⟨rfl, rfl, by decide⟩

/-- C7 amended: every response written through `send_json_response` — i.e.
every GET and POST response — carries `Content-type: application/json` and
the three CORS headers; OPTIONS responses carry the three CORS headers but no
Content-Type header. -/
theorem c7_json_responses_carry_content_type_and_cors :
    ((∀ p ∈ ([("Content-type", "application/json"),
              ("Access-Control-Allow-Origin", "*"),
              ("Access-Control-Allow-Methods", "GET, POST, OPTIONS"),
              ("Access-Control-Allow-Headers", "Content-Type")] :
                List (String × String)), p ∈ send_json_response_headers) ∧
     ∀ send path data,
        (do_POST send path data).2.headers = send_json_response_headers) ∧
    ((∀ p ∈ ([("Access-Control-Allow-Origin", "*"),
              ("Access-Control-Allow-Methods", "GET, POST, OPTIONS"),
              ("Access-Control-Allow-Headers", "Content-Type")] :
                List (String × String)), p ∈ do_OPTIONS.headers) ∧
     (do_OPTIONS.headers.all fun p => !((p.1.data.map Char.toLower) == "content-type".data)) = true) := by
  exact ⟨⟨by decide, do_POST_headers⟩, by decide, by decide⟩

/-- C7 amended witness: the membership facts instantiated at the
Content-type header and at a concrete POST. -/
theorem c7_witness :
    ("Content-type", "application/json") ∈ send_json_response_headers ∧
    (do_POST (fun _ => SendResult.ok JValue.null) "/x" []).2.headers =
      send_json_response_headers :=
  ⟨c7_json_responses_carry_content_type_and_cors.1.1
     ("Content-type", "application/json") (by decide),
   c7_json_responses_carry_content_type_and_cors.1.2
     (fun _ => SendResult.ok JValue.null) "/x" []⟩

/-- C8: for every non-empty device name, resolution succeeds and the result
is a non-empty string (both the table branch and the fallback branch produce
non-empty output). -/
theorem c8_resolve_never_empty (d : String) (_h : d ≠ "") :
    resolveUri d ≠ "" := by
  unfold resolveUri
  cases hl : lookupStr device_uris d with
  | none => exact fallbackUri_ne_empty d
  | some u =>
      show (if u = "" then fallbackUri d else u) ≠ ""
      split
      · exact fallbackUri_ne_empty d
      · assumption

/-- C8 witness: a name outside the table. -/
theorem c8_witness : "My Custom FX" ≠ "" ∧ resolveUri "My Custom FX" ≠ "" :=
  ⟨by decide, c8_resolve_never_empty "My Custom FX" (by decide)⟩

/-- C9: validation of `track_index` is only an `is None` check — every
non-null value (the integer 0, a string, a boolean, ...) passes, and the
value is placed unchanged in the args of the command sent; no integer type
check exists. -/
theorem c9_track_index_only_null_checked
    (data : Body) (tv : JValue) (d : String)
    (htrack : pyGet data "track_index" = tv)
    (hnull : tv ≠ JValue.null)
    (hname : pyGet data "device_name" = JValue.str d)
    (hne : d ≠ "") :
    add_device_step data =
      DispatchStep.sendCmd ⟨"load_browser_item", tv, resolveUri d⟩ := by
  rw [← htrack]
  exact add_device_step_valid data d (htrack ▸ hnull) hname hne

/-- C9 witness: `track_index` 0 — a falsy but non-null value — passes
validation and is forwarded as 0. -/
theorem c9_witness :
    add_device_step
        [("track_index", JValue.num 0), ("device_name", JValue.str "Reverb")] =
      DispatchStep.sendCmd ⟨"load_browser_item", JValue.num 0,
        resolveUri "Reverb"⟩ :=
  c9_track_index_only_null_checked
    [("track_index", JValue.num 0), ("device_name", JValue.str "Reverb")]
    (JValue.num 0) "Reverb" (by decide) (by decide) (by decide) (by decide)

/-- C10: each of the four table entries stores exactly the fallback
construction applied to its key, so resolution agrees everywhere with the
single fallback rule — the table branch is redundant. -/
theorem c10_table_redundant_resolve_eq_fallback :
    (lookupStr device_uris "EQ Eight" = some (fallbackUri "EQ Eight") ∧
     lookupStr device_uris "Compressor" = some (fallbackUri "Compressor") ∧
     lookupStr device_uris "Reverb" = some (fallbackUri "Reverb") ∧
     lookupStr device_uris "Delay" = some (fallbackUri "Delay")) ∧
    ∀ d, resolveUri d = fallbackUri d := by
  refine ⟨⟨by decide, by decide, by decide, by decide⟩, ?_⟩
  intro d
  by_cases h1 : d = "EQ Eight"
  · subst h1; decide
  by_cases h2 : d = "Compressor"
  · subst h2; decide
  by_cases h3 : d = "Reverb"
  · subst h3; decide
  by_cases h4 : d = "Delay"
  · subst h4; decide
  unfold resolveUri
  rw [lookupStr_device_uris_eq_none d h1 h2 h3 h4]
